import Mathlib

/-!
Verification of the HR manager repository's location, attendance, leave-request
and task-status logic, shallowly embedded from the TypeScript sources.

Embedding conventions:
* JavaScript `number` arithmetic on coordinates is modelled over `ℝ`
  (`Math.sin` as `Real.sin`, `Math.atan2` as `atan2` below, `Math.round`
  as `round : ℝ → ℤ`).
* Supabase calls are modelled by the data of the request they would issue;
  a thrown error is an `Except.error`.
* A JS boolean test on a real comparison is a `Prop` field.
-/

namespace HrManager

open Real

/-- JavaScript `Math.atan2 (y, x)` on non-NaN inputs, modelled over `ℝ`. -/
noncomputable def atan2 (y x : ℝ) : ℝ :=
  if 0 < x then Real.arctan (y / x)
  else if x < 0 ∧ 0 ≤ y then Real.arctan (y / x) + Real.pi
  else if x < 0 then Real.arctan (y / x) - Real.pi
  else if 0 < y then Real.pi / 2
  else if y < 0 then -(Real.pi / 2)
  else 0

/-- Office coordinates, from `src/config/office.ts` (`OFFICE_CONFIG.coordinates`). -/
structure OfficeCoordinates where
  lat : ℝ
  lng : ℝ

/-- The office configuration object of `src/config/office.ts`. -/
structure OfficeConfigShape where
  coordinates : OfficeCoordinates
  allowedRadius : ℝ
  enforceLocationCheck : Bool

/-- `OFFICE_CONFIG` from `src/config/office.ts`. -/
noncomputable def OFFICE_CONFIG : OfficeConfigShape :=
  { coordinates := { lat := 11.603722, lng := 76.209250 }
    allowedRadius := 100
    enforceLocationCheck := true }

/-- `calculateDistance` from `src/config/office.ts`: Haversine code path,
with `R = 6371e3`, angles converted by `* π / 180`, and
`c = 2 * Math.atan2(Math.sqrt a, Math.sqrt (1 - a))`. -/
noncomputable def calculateDistance (lat1 lng1 lat2 lng2 : ℝ) : ℝ :=
  let R : ℝ := 6371e3
  let phi1 := lat1 * Real.pi / 180
  let phi2 := lat2 * Real.pi / 180
  let dPhi := (lat2 - lat1) * Real.pi / 180
  let dLambda := (lng2 - lng1) * Real.pi / 180
  let a := Real.sin (dPhi / 2) * Real.sin (dPhi / 2) +
      Real.cos phi1 * Real.cos phi2 * Real.sin (dLambda / 2) * Real.sin (dLambda / 2)
  let c := 2 * atan2 (Real.sqrt a) (Real.sqrt (1 - a))
  R * c

/-- Result shape of `isWithinOfficeRange`: a boolean (here a `Prop`) and the
rounded integer distance in meters. -/
structure LocationCheck where
  isWithinRange : Prop
  distance : ℤ

/-- `isWithinOfficeRange` from `src/config/office.ts`. -/
noncomputable def isWithinOfficeRange (employeeLat employeeLng : ℝ) : LocationCheck :=
  let distance := calculateDistance employeeLat employeeLng
    OFFICE_CONFIG.coordinates.lat OFFICE_CONFIG.coordinates.lng
  { isWithinRange := distance ≤ OFFICE_CONFIG.allowedRadius
    distance := round distance }

/-- The haversine term `a` of `calculateDistance`, exposed for reasoning. -/
noncomputable def haversineA (lat1 lng1 lat2 lng2 : ℝ) : ℝ :=
  Real.sin ((lat2 - lat1) * Real.pi / 180 / 2) * Real.sin ((lat2 - lat1) * Real.pi / 180 / 2) +
    Real.cos (lat1 * Real.pi / 180) * Real.cos (lat2 * Real.pi / 180) *
      Real.sin ((lng2 - lng1) * Real.pi / 180 / 2) * Real.sin ((lng2 - lng1) * Real.pi / 180 / 2)

lemma calculateDistance_eq_haversineA (lat1 lng1 lat2 lng2 : ℝ) :
    calculateDistance lat1 lng1 lat2 lng2 =
      6371000 * (2 * atan2 (Real.sqrt (haversineA lat1 lng1 lat2 lng2))
        (Real.sqrt (1 - haversineA lat1 lng1 lat2 lng2))) := by
  unfold calculateDistance haversineA
  norm_num

/-- The `a` term is symmetric in the two points. -/
lemma haversineA_comm (lat1 lng1 lat2 lng2 : ℝ) :
    haversineA lat1 lng1 lat2 lng2 = haversineA lat2 lng2 lat1 lng1 := by
  unfold haversineA
  have h1 : (lat1 - lat2) * Real.pi / 180 / 2 = -((lat2 - lat1) * Real.pi / 180 / 2) := by ring
  have h2 : (lng1 - lng2) * Real.pi / 180 / 2 = -((lng2 - lng1) * Real.pi / 180 / 2) := by ring
  rw [h1, h2, Real.sin_neg, Real.sin_neg]
  ring

/-- `calculateDistance` is symmetric in its two points. -/
lemma calculateDistance_comm (lat1 lng1 lat2 lng2 : ℝ) :
    calculateDistance lat1 lng1 lat2 lng2 = calculateDistance lat2 lng2 lat1 lng1 := by
  rw [calculateDistance_eq_haversineA, calculateDistance_eq_haversineA,
    haversineA_comm lat1 lng1 lat2 lng2]

/-- For two coincident points the `a` term is `0`. -/
lemma haversineA_self (lat lng : ℝ) : haversineA lat lng lat lng = 0 := by
  unfold haversineA
  simp

lemma atan2_zero_one : atan2 0 1 = 0 := by
  unfold atan2
  norm_num

/-- The distance from a point to itself is `0`. -/
lemma calculateDistance_self (lat lng : ℝ) : calculateDistance lat lng lat lng = 0 := by
  rw [calculateDistance_eq_haversineA, haversineA_self]
  norm_num [atan2_zero_one]

/-- For `x ∈ [0, π/2)`, the `atan2` applied to `√(sin x · sin x)` and
`√(1 - sin x · sin x)` recovers `x`. -/
lemma atan2_sqrt_sin_sq {x : ℝ} (h0 : 0 ≤ x) (h1 : x < Real.pi / 2) :
    atan2 (Real.sqrt (Real.sin x * Real.sin x)) (Real.sqrt (1 - Real.sin x * Real.sin x)) = x := by
  have hpi := Real.pi_pos
  have hxpi : x ≤ Real.pi := by linarith
  have hs : 0 ≤ Real.sin x := Real.sin_nonneg_of_nonneg_of_le_pi h0 hxpi
  have hc : 0 < Real.cos x := Real.cos_pos_of_mem_Ioo ⟨by linarith, h1⟩
  have h1a : 1 - Real.sin x * Real.sin x = Real.cos x * Real.cos x := by
    nlinarith [Real.sin_sq_add_cos_sq x]
  rw [Real.sqrt_mul_self hs, h1a, Real.sqrt_mul_self hc.le]
  unfold atan2
  rw [if_pos hc, ← Real.tan_eq_sin_div_cos]
  exact Real.arctan_tan (by linarith) h1

/-- Distance along a meridian: for `lat2 ≥ lat1` (with the half angle below
`π/2`) the code's distance is exactly `R` times the latitude difference in
radians. -/
lemma calculateDistance_same_lng (lat1 lat2 lng : ℝ)
    (h0 : 0 ≤ lat2 - lat1) (h1 : (lat2 - lat1) * Real.pi / 360 < Real.pi / 2) :
    calculateDistance lat1 lng lat2 lng = 6371000 * ((lat2 - lat1) * Real.pi / 180) := by
  have hx0 : 0 ≤ (lat2 - lat1) * Real.pi / 360 := by positivity
  have ha : haversineA lat1 lng lat2 lng =
      Real.sin ((lat2 - lat1) * Real.pi / 360) * Real.sin ((lat2 - lat1) * Real.pi / 360) := by
    unfold haversineA
    rw [sub_self, show (0 : ℝ) * Real.pi / 180 / 2 = 0 by ring, Real.sin_zero,
      show (lat2 - lat1) * Real.pi / 180 / 2 = (lat2 - lat1) * Real.pi / 360 by ring]
    ring
  rw [calculateDistance_eq_haversineA, ha, atan2_sqrt_sin_sq hx0 h1]
  ring

/-- Latitudes in `[-90, 90]` have nonnegative cosine after degree→radian
conversion. -/
lemma cos_lat_nonneg {lat : ℝ} (h1 : -90 ≤ lat) (h2 : lat ≤ 90) :
    0 ≤ Real.cos (lat * Real.pi / 180) := by
  have hpi := Real.pi_pos
  refine Real.cos_nonneg_of_mem_Icc ⟨?_, ?_⟩ <;> nlinarith

/-- The haversine `a` term is nonnegative when both latitude cosines are. -/
lemma haversineA_nonneg (lat1 lng1 lat2 lng2 : ℝ)
    (hc1 : 0 ≤ Real.cos (lat1 * Real.pi / 180)) (hc2 : 0 ≤ Real.cos (lat2 * Real.pi / 180)) :
    0 ≤ haversineA lat1 lng1 lat2 lng2 := by
  unfold haversineA
  nlinarith [mul_self_nonneg (Real.sin ((lat2 - lat1) * Real.pi / 180 / 2)),
    mul_self_nonneg (Real.sin ((lng2 - lng1) * Real.pi / 180 / 2)),
    mul_nonneg hc1 hc2]

/-- The haversine `a` term is at most `1` when both latitude cosines are
nonnegative. -/
lemma haversineA_le_one (lat1 lng1 lat2 lng2 : ℝ)
    (hc1 : 0 ≤ Real.cos (lat1 * Real.pi / 180)) (hc2 : 0 ≤ Real.cos (lat2 * Real.pi / 180)) :
    haversineA lat1 lng1 lat2 lng2 ≤ 1 := by
  unfold haversineA
  set p1 := lat1 * Real.pi / 180 with hp1
  set p2 := lat2 * Real.pi / 180 with hp2
  have hd : (lat2 - lat1) * Real.pi / 180 / 2 = (p2 - p1) / 2 := by rw [hp1, hp2]; ring
  rw [hd]
  have hs1 : Real.sin ((p2 - p1) / 2) ^ 2 = 1 / 2 - Real.cos (p2 - p1) / 2 := by
    have h := Real.sin_sq_eq_half_sub ((p2 - p1) / 2)
    rwa [show 2 * ((p2 - p1) / 2) = p2 - p1 by ring] at h
  have hcsub : Real.cos (p2 - p1) = Real.cos p2 * Real.cos p1 + Real.sin p2 * Real.sin p1 :=
    Real.cos_sub p2 p1
  have hcadd : Real.cos (p1 + p2) = Real.cos p1 * Real.cos p2 - Real.sin p1 * Real.sin p2 :=
    Real.cos_add p1 p2
  have hle : Real.cos (p1 + p2) ≤ 1 := Real.cos_le_one _
  have hs2a : Real.sin ((lng2 - lng1) * Real.pi / 180 / 2) ≤ 1 := Real.sin_le_one _
  have hs2b : -1 ≤ Real.sin ((lng2 - lng1) * Real.pi / 180 / 2) := Real.neg_one_le_sin _
  have hC : 0 ≤ Real.cos p1 * Real.cos p2 := mul_nonneg hc1 hc2
  have hs2sq : Real.sin ((lng2 - lng1) * Real.pi / 180 / 2) *
      Real.sin ((lng2 - lng1) * Real.pi / 180 / 2) ≤ 1 := by nlinarith
  have hCs : Real.cos p1 * Real.cos p2 *
        (Real.sin ((lng2 - lng1) * Real.pi / 180 / 2) *
          Real.sin ((lng2 - lng1) * Real.pi / 180 / 2)) ≤
      Real.cos p1 * Real.cos p2 * 1 := mul_le_mul_of_nonneg_left hs2sq hC
  nlinarith [hCs, hC]

/-- On `a ∈ [0, 1]`, the code's `atan2 (√a) (√(1 - a))` equals `arcsin (√a)`. -/
lemma atan2_sqrt_eq_arcsin {A : ℝ} (h0 : 0 ≤ A) (h1 : A ≤ 1) :
    atan2 (Real.sqrt A) (Real.sqrt (1 - A)) = Real.arcsin (Real.sqrt A) := by
  rcases lt_or_eq_of_le h1 with hlt | heq
  · have hx : 0 < Real.sqrt (1 - A) := Real.sqrt_pos.mpr (by linarith)
    unfold atan2
    rw [if_pos hx]
    have hmem : Real.sqrt A ∈ Set.Ioo (-(1 : ℝ)) 1 := by
      refine ⟨by linarith [Real.sqrt_nonneg A], ?_⟩
      rw [show (1 : ℝ) = Real.sqrt 1 by rw [Real.sqrt_one]]
      exact Real.sqrt_lt_sqrt h0 hlt
    rw [Real.arcsin_eq_arctan hmem, Real.sq_sqrt h0]
  · subst heq
    norm_num [atan2, Real.arcsin_one]

/-- Modelled from the spec: "great-circle distance via the Haversine formula
using mean Earth radius 6,371,000 m", in the textbook form
`d = 2 R arcsin (√a)`. -/
noncomputable def haversineSpecDistance (lat1 lng1 lat2 lng2 : ℝ) : ℝ :=
  let phi1 := lat1 * Real.pi / 180
  let phi2 := lat2 * Real.pi / 180
  let a := Real.sin ((phi2 - phi1) / 2) ^ 2 +
      Real.cos phi1 * Real.cos phi2 * Real.sin ((lng2 - lng1) * Real.pi / 180 / 2) ^ 2
  2 * 6371000 * Real.arcsin (Real.sqrt a)

lemma haversineSpecDistance_eq (lat1 lng1 lat2 lng2 : ℝ) :
    haversineSpecDistance lat1 lng1 lat2 lng2 =
      2 * 6371000 * Real.arcsin (Real.sqrt (haversineA lat1 lng1 lat2 lng2)) := by
  unfold haversineSpecDistance haversineA
  norm_num
  congr 2
  rw [show (lat2 * Real.pi / 180 - lat1 * Real.pi / 180) / 2 = (lat2 - lat1) * Real.pi / 180 / 2
    by ring]
  ring

/-- For physical latitudes the code's `atan2` formulation agrees with the
spec's arcsine haversine formula. -/
lemma calculateDistance_eq_spec (lat1 lng1 lat2 lng2 : ℝ)
    (h1 : -90 ≤ lat1) (h2 : lat1 ≤ 90) (h3 : -90 ≤ lat2) (h4 : lat2 ≤ 90) :
    calculateDistance lat1 lng1 lat2 lng2 = haversineSpecDistance lat1 lng1 lat2 lng2 := by
  have hc1 := cos_lat_nonneg h1 h2
  have hc2 := cos_lat_nonneg h3 h4
  rw [calculateDistance_eq_haversineA, haversineSpecDistance_eq,
    atan2_sqrt_eq_arcsin (haversineA_nonneg lat1 lng1 lat2 lng2 hc1 hc2)
      (haversineA_le_one lat1 lng1 lat2 lng2 hc1 hc2)]
  ring

/-- Exact value of the distance for a point 0.01° of latitude north of the
office (same longitude). -/
lemma calculateDistance_north_001 :
    calculateDistance (OFFICE_CONFIG.coordinates.lat + 0.01) OFFICE_CONFIG.coordinates.lng
        OFFICE_CONFIG.coordinates.lat OFFICE_CONFIG.coordinates.lng =
      6371000 * (0.01 * Real.pi / 180) := by
  have hpi := Real.pi_pos
  rw [calculateDistance_comm]
  rw [show OFFICE_CONFIG.coordinates.lat + 0.01 = OFFICE_CONFIG.coordinates.lat + 0.01 from rfl]
  have h := calculateDistance_same_lng OFFICE_CONFIG.coordinates.lat
    (OFFICE_CONFIG.coordinates.lat + 0.01) OFFICE_CONFIG.coordinates.lng
    (by norm_num) (by nlinarith)
  rw [show OFFICE_CONFIG.coordinates.lat + 0.01 - OFFICE_CONFIG.coordinates.lat = 0.01
    by ring] at h
  exact h

lemma north_001_gt_1111 : (1111 : ℝ) < 6371000 * (0.01 * Real.pi / 180) := by
  nlinarith [Real.pi_gt_d6]

lemma north_001_lt_1112 : 6371000 * (0.01 * Real.pi / 180) < (1112 : ℝ) := by
  nlinarith [Real.pi_lt_d6]

lemma round_north_001 : round (6371000 * (0.01 * Real.pi / 180)) = (1112 : ℤ) := by
  rw [round_eq, Int.floor_eq_iff]
  constructor
  · push_cast
    nlinarith [Real.pi_gt_d6]
  · push_cast
    nlinarith [Real.pi_lt_d6]

/-- A point due south of the office whose haversine distance is exactly the
100 m radius. -/
noncomputable def boundaryLat : ℝ := OFFICE_CONFIG.coordinates.lat - 18 / (6371 * Real.pi)

lemma calculateDistance_boundary :
    calculateDistance boundaryLat OFFICE_CONFIG.coordinates.lng
        OFFICE_CONFIG.coordinates.lat OFFICE_CONFIG.coordinates.lng =
      OFFICE_CONFIG.allowedRadius := by
  have hpi := Real.pi_pos
  have hdiff : OFFICE_CONFIG.coordinates.lat - boundaryLat = 18 / (6371 * Real.pi) := by
    unfold boundaryLat; ring
  have h := calculateDistance_same_lng boundaryLat OFFICE_CONFIG.coordinates.lat
    OFFICE_CONFIG.coordinates.lng (by rw [hdiff]; positivity)
    (by rw [hdiff]
        have hcancel : 18 / (6371 * Real.pi) * Real.pi / 360 = 18 / (6371 * 360) := by
          rw [div_mul_eq_mul_div, div_div]
          rw [mul_comm (18 : ℝ) Real.pi, mul_comm (6371 * Real.pi) 360]
          rw [show (360 : ℝ) * (6371 * Real.pi) = Real.pi * (360 * 6371) by ring]
          rw [mul_div_mul_left _ _ (ne_of_gt hpi)]
          norm_num
        rw [hcancel]
        nlinarith [Real.pi_gt_three])
  rw [h, hdiff]
  show 6371000 * (18 / (6371 * Real.pi) * Real.pi / 180) = (100 : ℝ)
  field_simp
  ring

/-- C1: `isWithinOfficeRange` reports the rounded haversine great-circle
distance (mean Earth radius 6,371,000 m) to the office coordinates, and at a
point 0.01° of latitude north of the office that distance lies strictly
between 1111 m and 1112 m, well beyond the 100 m radius, so `isWithinRange`
is false there. -/
theorem isWithinOfficeRange_reports_rounded_haversine :
    (∀ lat lng : ℝ, -90 ≤ lat → lat ≤ 90 →
        (isWithinOfficeRange lat lng).distance =
          round (haversineSpecDistance lat lng OFFICE_CONFIG.coordinates.lat
            OFFICE_CONFIG.coordinates.lng)) ∧
    1111 < calculateDistance (OFFICE_CONFIG.coordinates.lat + 0.01)
        OFFICE_CONFIG.coordinates.lng OFFICE_CONFIG.coordinates.lat
        OFFICE_CONFIG.coordinates.lng ∧
    calculateDistance (OFFICE_CONFIG.coordinates.lat + 0.01) OFFICE_CONFIG.coordinates.lng
        OFFICE_CONFIG.coordinates.lat OFFICE_CONFIG.coordinates.lng < 1112 ∧
    (isWithinOfficeRange (OFFICE_CONFIG.coordinates.lat + 0.01)
        OFFICE_CONFIG.coordinates.lng).distance = 1112 ∧
    ¬ (isWithinOfficeRange (OFFICE_CONFIG.coordinates.lat + 0.01)
        OFFICE_CONFIG.coordinates.lng).isWithinRange := by
  refine ⟨?_, ?_, ?_, ?_, ?_⟩
  · intro lat lng hlo hhi
    show round (calculateDistance lat lng OFFICE_CONFIG.coordinates.lat
      OFFICE_CONFIG.coordinates.lng) = _
    rw [calculateDistance_eq_spec lat lng OFFICE_CONFIG.coordinates.lat
      OFFICE_CONFIG.coordinates.lng hlo hhi (by norm_num [OFFICE_CONFIG])
      (by norm_num [OFFICE_CONFIG])]
  · rw [calculateDistance_north_001]; exact north_001_gt_1111
  · rw [calculateDistance_north_001]; exact north_001_lt_1112
  · show round (calculateDistance _ _ _ _) = _
    rw [calculateDistance_north_001]; exact round_north_001
  · show ¬ (calculateDistance _ _ _ _ ≤ OFFICE_CONFIG.allowedRadius)
    rw [calculateDistance_north_001]
    have h1 := north_001_gt_1111
    have : OFFICE_CONFIG.allowedRadius = (100 : ℝ) := rfl
    rw [this]
    linarith

/-- Witness for C1 at the concrete point `(0, 0)`. -/
theorem isWithinOfficeRange_reports_rounded_haversine_witness :
    (isWithinOfficeRange 0 0).distance =
      round (haversineSpecDistance 0 0 OFFICE_CONFIG.coordinates.lat
        OFFICE_CONFIG.coordinates.lng) :=
  isWithinOfficeRange_reports_rounded_haversine.1 0 0 (by norm_num) (by norm_num)

/-- C2: the allowed radius is 100 m and any point whose computed distance to
the office is exactly the radius is classified as within range (the
comparison is boundary-inclusive `<=`). -/
theorem isWithinOfficeRange_boundary_inclusive :
    OFFICE_CONFIG.allowedRadius = 100 ∧
    ∀ lat lng : ℝ,
      calculateDistance lat lng OFFICE_CONFIG.coordinates.lat OFFICE_CONFIG.coordinates.lng =
          OFFICE_CONFIG.allowedRadius →
        (isWithinOfficeRange lat lng).isWithinRange := by
  refine ⟨rfl, ?_⟩
  intro lat lng h
  show calculateDistance lat lng OFFICE_CONFIG.coordinates.lat OFFICE_CONFIG.coordinates.lng ≤
    OFFICE_CONFIG.allowedRadius
  exact le_of_eq h

/-- Witness for C2: a concrete point due south of the office at exactly 100 m. -/
theorem isWithinOfficeRange_boundary_inclusive_witness :
    (isWithinOfficeRange boundaryLat OFFICE_CONFIG.coordinates.lng).isWithinRange :=
  isWithinOfficeRange_boundary_inclusive.2 boundaryLat OFFICE_CONFIG.coordinates.lng
    calculateDistance_boundary

/-- C3: the distance from any point to itself is `0`; in particular an
employee at the office coordinates gets distance `0` and is within the
(positive) configured radius. -/
theorem calculateDistance_self_zero :
    (∀ lat lng : ℝ, calculateDistance lat lng lat lng = 0) ∧
    0 < OFFICE_CONFIG.allowedRadius ∧
    (isWithinOfficeRange OFFICE_CONFIG.coordinates.lat
      OFFICE_CONFIG.coordinates.lng).isWithinRange ∧
    (isWithinOfficeRange OFFICE_CONFIG.coordinates.lat
      OFFICE_CONFIG.coordinates.lng).distance = 0 := by
  refine ⟨calculateDistance_self, by norm_num [OFFICE_CONFIG], ?_, ?_⟩
  · show calculateDistance _ _ _ _ ≤ OFFICE_CONFIG.allowedRadius
    rw [calculateDistance_self]
    norm_num [OFFICE_CONFIG]
  · show round (calculateDistance _ _ _ _) = _
    rw [calculateDistance_self]
    norm_num

/-- C4: `calculateDistance` is symmetric in its two points. -/
theorem calculateDistance_symmetric :
    ∀ lat1 lng1 lat2 lng2 : ℝ,
      calculateDistance lat1 lng1 lat2 lng2 = calculateDistance lat2 lng2 lat1 lng1 :=
  calculateDistance_comm

/-! ### Attendance marking (`src/components/admin/AdminAttendance.tsx`) -/

/-- JavaScript `String.prototype.trim()`: drop leading and trailing
whitespace, modelled on the string's character list. -/
def jsTrim (s : String) : String :=
  ⟨((s.data.dropWhile Char.isWhitespace).reverse.dropWhile Char.isWhitespace).reverse⟩

/-- The fields of the logged-in employee used by the attendance screen. -/
structure EmployeeRec where
  employee_id : String
  location : String
deriving DecidableEq

/-- A device geolocation fix. -/
structure Coords where
  lat : ℝ
  lng : ℝ

/-- A row of the `attendance` table as held in `todayAttendance` state. -/
structure AttendanceRow where
  id : String
  check_out_time : Option String
deriving DecidableEq

/-- How `handleMarkAttendance` was invoked. -/
inductive MarkMethod
  | qr
  | manual
deriving DecidableEq

/-- Component state read by `handleMarkAttendance`. -/
structure AttendanceState where
  employeeId : String
  manualEmployeeId : String
  employee : Option EmployeeRec
  location : Option Coords
  locationCheck : Option LocationCheck
  todayAttendance : Option AttendanceRow

/-- The database call a successful run of `handleMarkAttendance` issues. -/
inductive DbCall
  /-- `supabase.from('attendance').insert({...})` (check-in). -/
  | insertAttendance (employee_id : String) (lat lng : ℝ) (method : MarkMethod)
  /-- `supabase.from('attendance').update({...}).eq('id', rowId)` (check-out). -/
  | updateAttendance (rowId : String) (lat lng : ℝ)

/-- Observable outcome of one run of `handleMarkAttendance`. -/
inductive MarkOutcome
  /-- "Employee ID not found" (falsy trimmed id). -/
  | errorMissingId
  /-- "You can only mark attendance for your own Employee ID". -/
  | errorAccessDenied
  /-- "Location not available. Please enable location services." -/
  | errorNoLocation
  /-- "You must be within 100m of the office...' with the reported distance. -/
  | errorTooFar (distance : ℤ)
  /-- The function reaches the database phase and issues this call. -/
  | db (call : DbCall)
  /-- "You have already checked out for today" (no call issued). -/
  | alreadyCheckedOut

/-- The insert/update call of an outcome, if any. -/
def dbCallOf : MarkOutcome → Option DbCall
  | .db c => some c
  | _ => none

/-- Outcomes that set an error message (`setMessage({type: "error", ...})`). -/
def showsError : MarkOutcome → Bool
  | .errorMissingId => true
  | .errorAccessDenied => true
  | .errorNoLocation => true
  | .errorTooFar _ => true
  | _ => false

/-- `method === "qr" ? employeeId : manualEmployeeId`. -/
def idToUseOf (s : AttendanceState) : MarkMethod → String
  | .qr => s.employeeId
  | .manual => s.manualEmployeeId

/-- `employee && idToUse.trim() !== employee.employee_id`. -/
def idMismatch (employee : Option EmployeeRec) (idTrimmed : String) : Bool :=
  match employee with
  | some e => idTrimmed != e.employee_id
  | none => false

/-- `employee?.location === 'in-office' && OFFICE_CONFIG.enforceLocationCheck`. -/
noncomputable def inOfficeEnforced (employee : Option EmployeeRec) : Bool :=
  (match employee with
    | some e => e.location == "in-office"
    | none => false) && OFFICE_CONFIG.enforceLocationCheck

/-- The database phase of `handleMarkAttendance` (after all guards): check-out
update when today's row exists without a checkout, the already-checked-out
message when it has one, otherwise the check-in insert (with the raw
`idToUse`). -/
def markDbPhase (s : AttendanceState) (idToUse : String) (loc : Coords)
    (method : MarkMethod) : MarkOutcome :=
  match s.todayAttendance with
  | some row =>
    match row.check_out_time with
    | none => .db (.updateAttendance row.id loc.lat loc.lng)
    | some _ => .alreadyCheckedOut
  | none => .db (.insertAttendance idToUse loc.lat loc.lng method)

open Classical in
/-- `handleMarkAttendance` from `src/components/admin/AdminAttendance.tsx`:
the guard chain (missing id, foreign id, missing location, out-of-range
in-office employee) followed by the database phase. -/
noncomputable def handleMarkAttendance (s : AttendanceState) (method : MarkMethod) :
    MarkOutcome :=
  let idToUse := idToUseOf s method
  if jsTrim idToUse = "" then .errorMissingId
  else if idMismatch s.employee (jsTrim idToUse) then .errorAccessDenied
  else
    match s.location with
    | none => .errorNoLocation
    | some loc =>
      if inOfficeEnforced s.employee then
        match s.locationCheck with
        | none => .errorTooFar 0
        | some lc =>
          if lc.isWithinRange then markDbPhase s idToUse loc method
          else .errorTooFar lc.distance
      else markDbPhase s idToUse loc method

/-- The geolocation callback of the attendance screen: for in-office
employees (with the check enforced) it stores `isWithinOfficeRange` of the
device position, otherwise it stores `{isWithinRange: true, distance: 0}`. -/
noncomputable def locationCheckOnPosition (employee : Option EmployeeRec)
    (userLocation : Coords) : LocationCheck :=
  if inOfficeEnforced employee then
    isWithinOfficeRange userLocation.lat userLocation.lng
  else { isWithinRange := True, distance := 0 }

/-! ### Leave requests (`src/components/admin/AdminLeaveRequests.tsx`) -/

/-- The single `update ... .eq('id', requestId)` call both leave mutations
issue: the fields written and the targeted row id. -/
structure LeaveUpdate where
  requestId : String
  status : String
  approved_by : Option String
  approved_at : String
  rejection_reason : Option String
deriving DecidableEq

/-- A row of the `leave_requests` table (the fields the mutations touch). -/
structure LeaveRow where
  id : String
  status : String
  approved_by : Option String
  approved_at : Option String
  rejection_reason : Option String
deriving DecidableEq

/-- Effect of a `LeaveUpdate` on one row: only the row whose `id` matches the
`eq('id', requestId)` filter is rewritten. -/
def applyLeaveUpdate (row : LeaveRow) (u : LeaveUpdate) : LeaveRow :=
  if row.id == u.requestId then
    { row with
      status := u.status
      approved_by := u.approved_by
      approved_at := some u.approved_at
      rejection_reason := u.rejection_reason }
  else row

/-- `approveMutation.mutationFn`: one update setting `status: 'approved'`,
`approved_by: employee?.employee_id`, `approved_at: now`, and
`rejection_reason: comment || null`. -/
def approveMutation (employee : Option EmployeeRec) (now requestId comment : String) :
    Except String LeaveUpdate :=
  .ok
    { requestId := requestId
      status := "approved"
      approved_by := employee.map (·.employee_id)
      approved_at := now
      rejection_reason := if comment = "" then none else some comment }

/-- `rejectMutation.mutationFn`: throws "Rejection reason is required" on a
blank trimmed reason, otherwise one update setting `status: 'rejected'`,
`approved_by`, `approved_at` and the reason. -/
def rejectMutation (employee : Option EmployeeRec) (now requestId reason : String) :
    Except String LeaveUpdate :=
  if jsTrim reason = "" then .error "Rejection reason is required"
  else
    .ok
      { requestId := requestId
        status := "rejected"
        approved_by := employee.map (·.employee_id)
        approved_at := now
        rejection_reason := some reason }

/-! ### Task status enumerations -/

/-- Task `status` union in `src/lib/supabase.ts` (`tasks.Row.status`), also the
one of the older `AdminTasks` screen version kept in the repository. -/
def databaseTaskStatusValues : List String :=
  ["pending", "in_progress", "completed", "overdue"]

/-- Task `status` union of the `Task` interface in
`src/components/admin/AdminTasks.tsx`. -/
def adminTasksStatusValues : List String :=
  ["not_started", "in_progress", "completed", "shelved", "accepted", "rejected"]

/-- C5: an employee not flagged `in-office` gets the literal
`{isWithinRange: true, distance: 0}` location check whatever the device
coordinates, and `handleMarkAttendance` never returns the too-far error for
such an employee. -/
theorem remote_employee_never_blocked_on_distance :
    (∀ (e : EmployeeRec) (pos : Coords), e.location ≠ "in-office" →
        locationCheckOnPosition (some e) pos = { isWithinRange := True, distance := 0 }) ∧
    (∀ (s : AttendanceState) (m : MarkMethod) (e : EmployeeRec), s.employee = some e →
        e.location ≠ "in-office" →
        ∀ d : ℤ, handleMarkAttendance s m ≠ .errorTooFar d) := by
  constructor
  · intro e pos he
    simp [locationCheckOnPosition, inOfficeEnforced, he]
  · intro s m e hse he d
    have hin : inOfficeEnforced s.employee = false := by
      rw [hse]; simp [inOfficeEnforced, he]
    have hdb : ∀ idT loc, markDbPhase s idT loc m ≠ .errorTooFar d := by
      intro idT loc
      unfold markDbPhase
      cases s.todayAttendance with
      | none => simp
      | some row =>
        rcases row with ⟨rid, co⟩
        cases co <;> simp
    simp only [handleMarkAttendance]
    by_cases h1 : jsTrim (idToUseOf s m) = ""
    · rw [if_pos h1]; simp
    · rw [if_neg h1]
      by_cases h2 : idMismatch s.employee (jsTrim (idToUseOf s m)) = true
      · rw [if_pos h2]; simp
      · rw [if_neg h2]
        cases s.location with
        | none => simp
        | some loc =>
          simp only [hin]
          simpa using hdb (idToUseOf s m) loc

/-- Witness for C5: a remote employee far from the office. -/
theorem remote_employee_never_blocked_on_distance_witness :
    locationCheckOnPosition (some ⟨"EMP001", "remote"⟩) ⟨0, 0⟩ =
      { isWithinRange := True, distance := 0 } ∧
    handleMarkAttendance
        { employeeId := "EMP001", manualEmployeeId := "",
          employee := some ⟨"EMP001", "remote"⟩, location := some ⟨0, 0⟩,
          locationCheck := some ⟨True, 0⟩, todayAttendance := none } .qr ≠
      .errorTooFar 0 :=
  ⟨remote_employee_never_blocked_on_distance.1 ⟨"EMP001", "remote"⟩ ⟨0, 0⟩ (by decide),
    remote_employee_never_blocked_on_distance.2 _ .qr ⟨"EMP001", "remote"⟩ rfl (by decide) 0⟩

/-- C6: with no stored geolocation, `handleMarkAttendance` sets an error
message and issues no insert or update call. -/
theorem no_location_blocks_marking :
    ∀ (s : AttendanceState) (m : MarkMethod), s.location = none →
      showsError (handleMarkAttendance s m) = true ∧
      dbCallOf (handleMarkAttendance s m) = none := by
  intro s m hloc
  simp only [handleMarkAttendance, hloc]
  split_ifs with h1 h2
  · exact ⟨rfl, rfl⟩
  · exact ⟨rfl, rfl⟩
  · exact ⟨rfl, rfl⟩

/-- Witness for C6: a concrete state with `location = none`. -/
theorem no_location_blocks_marking_witness :
    showsError (handleMarkAttendance
      { employeeId := "EMP001", manualEmployeeId := "",
        employee := some ⟨"EMP001", "in-office"⟩, location := none,
        locationCheck := none, todayAttendance := none } .qr) = true ∧
    dbCallOf (handleMarkAttendance
      { employeeId := "EMP001", manualEmployeeId := "",
        employee := some ⟨"EMP001", "in-office"⟩, location := none,
        locationCheck := none, todayAttendance := none } .qr) = none :=
  no_location_blocks_marking _ .qr rfl

/-- State with a whitespace-only manual id and a logged-in employee: the
submitted id differs from the employee's own id after trimming. -/
def whitespaceIdState : AttendanceState :=
  { employeeId := ""
    manualEmployeeId := " "
    employee := some ⟨"EMP001", "in-office"⟩
    location := some ⟨0, 0⟩
    locationCheck := none
    todayAttendance := none }

/-- Counterexample to C10 as stated: a whitespace-only submitted id differs
from the logged-in employee's id, yet the outcome is the missing-id error,
not the access-denied error. -/
theorem foreign_id_access_denied_counterexample :
    whitespaceIdState.employee = some ⟨"EMP001", "in-office"⟩ ∧
    jsTrim (idToUseOf whitespaceIdState .manual) ≠ "EMP001" ∧
    handleMarkAttendance whitespaceIdState .manual = .errorMissingId ∧
    handleMarkAttendance whitespaceIdState .manual ≠ .errorAccessDenied := by
  refine ⟨rfl, by decide, rfl, ?_⟩
  intro h
  rw [show handleMarkAttendance whitespaceIdState .manual = .errorMissingId from rfl] at h
  exact MarkOutcome.noConfusion h

/-- C10 (amended): a submitted id that is non-blank after trimming and
differs from the logged-in employee's own id yields the access-denied error
and no database call; moreover any differing trimmed id (blank included)
yields no database call. -/
theorem foreign_id_access_denied :
    (∀ (s : AttendanceState) (m : MarkMethod) (e : EmployeeRec), s.employee = some e →
        jsTrim (idToUseOf s m) ≠ "" → jsTrim (idToUseOf s m) ≠ e.employee_id →
        handleMarkAttendance s m = .errorAccessDenied ∧
        dbCallOf (handleMarkAttendance s m) = none) ∧
    (∀ (s : AttendanceState) (m : MarkMethod) (e : EmployeeRec), s.employee = some e →
        jsTrim (idToUseOf s m) ≠ e.employee_id →
        dbCallOf (handleMarkAttendance s m) = none) := by
  have key : ∀ (s : AttendanceState) (m : MarkMethod) (e : EmployeeRec), s.employee = some e →
      jsTrim (idToUseOf s m) ≠ "" → jsTrim (idToUseOf s m) ≠ e.employee_id →
      handleMarkAttendance s m = .errorAccessDenied := by
    intro s m e hse hne hdiff
    have hmis : idMismatch s.employee (jsTrim (idToUseOf s m)) = true := by
      rw [hse]
      simpa [idMismatch, bne_iff_ne] using hdiff
    simp only [handleMarkAttendance]
    rw [if_neg hne, if_pos hmis]
  constructor
  · intro s m e hse hne hdiff
    refine ⟨key s m e hse hne hdiff, ?_⟩
    rw [key s m e hse hne hdiff]
    rfl
  · intro s m e hse hdiff
    by_cases hne : jsTrim (idToUseOf s m) = ""
    · simp only [handleMarkAttendance]
      rw [if_pos hne]
      rfl
    · rw [key s m e hse hne hdiff]
      rfl

/-- Witness for the amended C10: a foreign non-blank id is refused with the
access-denied outcome and no database call. -/
theorem foreign_id_access_denied_witness :
    handleMarkAttendance
        { employeeId := "EMP999", manualEmployeeId := "",
          employee := some ⟨"EMP001", "in-office"⟩, location := some ⟨0, 0⟩,
          locationCheck := none, todayAttendance := none } .qr = .errorAccessDenied ∧
    dbCallOf (handleMarkAttendance
        { employeeId := "EMP999", manualEmployeeId := "",
          employee := some ⟨"EMP001", "in-office"⟩, location := some ⟨0, 0⟩,
          locationCheck := none, todayAttendance := none } .qr) = none :=
  foreign_id_access_denied.1 _ .qr ⟨"EMP001", "in-office"⟩ rfl (by decide) (by decide)

/-- C7: each decision is one update call on the single row matching the
request id, setting the status to `approved` resp. `rejected` together with
the acting admin's id and the decision timestamp; rows with another id are
untouched. -/
theorem leave_decision_mutations :
    ∀ (e : EmployeeRec) (now requestId comment reason : String) (row other : LeaveRow),
      row.id = requestId → row.status = "pending" → other.id ≠ requestId →
      (∃ u, approveMutation (some e) now requestId comment = .ok u ∧
        u.status = "approved" ∧
        (applyLeaveUpdate row u).status = "approved" ∧
        (applyLeaveUpdate row u).approved_by = some e.employee_id ∧
        (applyLeaveUpdate row u).approved_at = some now ∧
        applyLeaveUpdate other u = other) ∧
      (jsTrim reason ≠ "" →
        ∃ u, rejectMutation (some e) now requestId reason = .ok u ∧
          u.status = "rejected" ∧
          (applyLeaveUpdate row u).status = "rejected" ∧
          (applyLeaveUpdate row u).approved_by = some e.employee_id ∧
          (applyLeaveUpdate row u).approved_at = some now ∧
          applyLeaveUpdate other u = other) := by
  intro e now requestId comment reason row other hid hpending hother
  constructor
  · refine ⟨_, rfl, rfl, ?_, ?_, ?_, ?_⟩ <;>
      simp [applyLeaveUpdate, hid, hother]
  · intro hreason
    have hrej : rejectMutation (some e) now requestId reason =
        .ok { requestId := requestId, status := "rejected",
              approved_by := some e.employee_id, approved_at := now,
              rejection_reason := some reason } := by
      unfold rejectMutation
      rw [if_neg hreason]
      rfl
    refine ⟨_, hrej, rfl, ?_, ?_, ?_, ?_⟩ <;>
      simp [applyLeaveUpdate, hid, hother]

/-- Witness for C7 on concrete rows. -/
theorem leave_decision_mutations_witness :
    (∃ u, approveMutation (some ⟨"ADMIN1", "in-office"⟩) "t0" "req1" "" = .ok u ∧
      u.status = "approved" ∧
      (applyLeaveUpdate ⟨"req1", "pending", none, none, none⟩ u).status = "approved" ∧
      (applyLeaveUpdate ⟨"req1", "pending", none, none, none⟩ u).approved_by = some "ADMIN1" ∧
      (applyLeaveUpdate ⟨"req1", "pending", none, none, none⟩ u).approved_at = some "t0" ∧
      applyLeaveUpdate ⟨"req2", "pending", none, none, none⟩ u =
        ⟨"req2", "pending", none, none, none⟩) ∧
    (∃ u, rejectMutation (some ⟨"ADMIN1", "in-office"⟩) "t0" "req1" "ill" = .ok u ∧
      u.status = "rejected" ∧
      (applyLeaveUpdate ⟨"req1", "pending", none, none, none⟩ u).status = "rejected" ∧
      (applyLeaveUpdate ⟨"req1", "pending", none, none, none⟩ u).approved_by = some "ADMIN1" ∧
      (applyLeaveUpdate ⟨"req1", "pending", none, none, none⟩ u).approved_at = some "t0" ∧
      applyLeaveUpdate ⟨"req2", "pending", none, none, none⟩ u =
        ⟨"req2", "pending", none, none, none⟩) :=
  ⟨(leave_decision_mutations ⟨"ADMIN1", "in-office"⟩ "t0" "req1" "" "ill"
      ⟨"req1", "pending", none, none, none⟩ ⟨"req2", "pending", none, none, none⟩
      rfl rfl (by decide)).1,
    (leave_decision_mutations ⟨"ADMIN1", "in-office"⟩ "t0" "req1" "" "ill"
      ⟨"req1", "pending", none, none, none⟩ ⟨"req2", "pending", none, none, none⟩
      rfl rfl (by decide)).2 (by decide)⟩

/-- C9: a blank (empty or whitespace-only) rejection reason makes the reject
mutation throw "Rejection reason is required" with no update issued; a
non-blank trimmed reason produces the update. -/
theorem reject_requires_reason :
    ∀ (employee : Option EmployeeRec) (now requestId reason : String),
      (jsTrim reason = "" →
        rejectMutation employee now requestId reason =
          .error "Rejection reason is required") ∧
      (jsTrim reason ≠ "" →
        ∃ u, rejectMutation employee now requestId reason = .ok u) := by
  intro employee now requestId reason
  constructor
  · intro h
    unfold rejectMutation
    rw [if_pos h]
  · intro h
    have hok : rejectMutation employee now requestId reason =
        .ok { requestId := requestId, status := "rejected",
              approved_by := employee.map (fun e => e.employee_id), approved_at := now,
              rejection_reason := some reason } := by
      unfold rejectMutation
      rw [if_neg h]
    exact ⟨_, hok⟩

/-- Witness for C9 at a whitespace-only and a non-blank reason. -/
theorem reject_requires_reason_witness :
    rejectMutation (some ⟨"ADMIN1", "in-office"⟩) "t0" "req1" " " =
        .error "Rejection reason is required" ∧
    ∃ u, rejectMutation (some ⟨"ADMIN1", "in-office"⟩) "t0" "req1" "sick" = .ok u :=
  ⟨(reject_requires_reason _ "t0" "req1" " ").1 (by decide),
    (reject_requires_reason _ "t0" "req1" "sick").2 (by decide)⟩

/-- C8: the task status enumeration declared in `src/lib/supabase.ts` (and the
older task screen) and the one declared in `src/components/admin/AdminTasks.tsx`
are different value sets. -/
theorem task_status_enums_differ :
    databaseTaskStatusValues.toFinset ≠ adminTasksStatusValues.toFinset ∧
    "overdue" ∈ databaseTaskStatusValues ∧
    "overdue" ∉ adminTasksStatusValues ∧
    "not_started" ∈ adminTasksStatusValues ∧
    "not_started" ∉ databaseTaskStatusValues := by
  refine ⟨?_, by decide, by decide, by decide, by decide⟩
  intro h
  have : ("overdue" : String) ∈ adminTasksStatusValues.toFinset := by
    rw [← h]
    decide
  revert this
  decide

end HrManager
